import Mathlib

/-!
Shallow embedding of the `RoCell` read-only cell (src/src/lib.rs).

`RoCell<T>` wraps `UnsafeCell<MaybeUninit<T>>`: a single storage slot that
either holds a valid value of type `T` or is uninitialized.  We model the
slot as `Option T`, with `none` standing for uninitialized storage.  The
Rust operations, which act through raw pointers, become pure
state-transition functions; reading uninitialized storage (undefined
behavior in the source) surfaces as `none`.

Destructor activity is made observable so that cleanup-counting claims can
be stated: the destroy operation returns the list of destructor
invocations it performs, each entry recording the slot content the
destructor ran on (`none` meaning the destructor ran on uninitialized
storage).  The cleanup claims all concern value types with a nontrivial
destructor, for which `drop_in_place` on the storage is exactly one
destructor invocation.
-/

/-- Model of `RoCell<T>`: the storage slot of `UnsafeCell<MaybeUninit<T>>`.
`none` is uninitialized storage, `some v` a slot holding the valid value `v`. -/
structure RoCell (T : Type) where
  slot : Option T

namespace RoCell

variable {T : Type}

/-- Source `RoCell::new(value)` (lib.rs 32-34): a cell whose slot already
holds `value`. -/
def new (value : T) : RoCell T := ⟨some value⟩

/-- Source `RoCell::new_uninit()` (lib.rs 44-46): a cell whose storage is
uninitialized. -/
def new_uninit : RoCell T := ⟨none⟩

/-- Source `RoCell::init(this, value)` (lib.rs 59-61): `core::ptr::write`
stores `value` into the slot without reading or dropping the previous
content.  First component: the new cell state; second component: the list
of destructor invocations performed by the operation (`ptr::write`
performs none, so a previously held valid value is leaked). -/
def init (self : RoCell T) (value : T) : RoCell T × List (Option T) :=
  (⟨some value⟩, [])

/-- Source `<RoCell<T> as Deref>::deref` (lib.rs 100-102): a shared view of
the slot content; `none` models the undefined read of uninitialized
storage. -/
def deref (self : RoCell T) : Option T := self.slot

/-- Source `RoCell::as_mut` (lib.rs 91-93) yields `&mut T` into the slot;
`as_mut_modify self f` models writing `f(old)` through that mutable
reference, updating the slot in place. -/
def as_mut_modify (self : RoCell T) (f : T → T) : RoCell T :=
  ⟨self.slot.map f⟩

/-- Source `RoCell::replace(this, value)` (lib.rs 74-76):
`core::mem::replace(RoCell::as_mut(this), value)` writes `value` into the
slot and returns the previous content by move; no destructor runs.  First
component: the new cell state; second component: the returned old content
(`none` models the undefined read of uninitialized storage). -/
def replace (self : RoCell T) (value : T) : RoCell T × Option T :=
  (⟨some value⟩, self.slot)

/-- Source `<RoCell<T> as Drop>::drop` (lib.rs 22-27):
`core::ptr::drop_in_place` on the storage performs exactly one destructor
invocation, on whatever the slot holds — unconditionally, with no
occupancy check.  An entry `some v` is a destructor run on the valid value
`v`; `none` is a destructor run on uninitialized storage. -/
def destroyEvents (self : RoCell T) : List (Option T) := [self.slot]

/-- Number of destructor invocations performed by destroying the cell. -/
def destroyDropCount (self : RoCell T) : Nat := (destroyEvents self).length

/-- Source `<RoCell<T> as fmt::Debug>::fmt` (lib.rs 105-109): delegates to
the contained value through `deref`, adding no wrapper text.  `fmtT` is
the value type's own debug formatting; `none` models the undefined
formatting of an uninitialized cell. -/
def debugFmt (self : RoCell T) (fmtT : T → String) : Option String :=
  (deref self).map fmtT

end RoCell

open RoCell

/-- C1: for every value `v`, constructing an uninitialized cell, then
calling `init` with `v`, then dereferencing, yields exactly `v`. -/
theorem C1_new_uninit_init_deref (T : Type) (v : T) :
    deref (init (new_uninit : RoCell T) v).1 = some v := rfl

/-- C2: for every pair `(v1, v2)`, after `new v1` then `replace` with
`v2`, the value returned by `replace` is `v1` and a subsequent
dereference of the cell yields `v2`. -/
theorem C2_new_replace_deref (T : Type) (v1 v2 : T) :
    (replace (new v1) v2).2 = some v1 ∧
    deref (replace (new v1) v2).1 = some v2 :=
  ⟨rfl, rfl⟩

/-- C3 counterexample: destroying a cell constructed uninitialized and
never initialized does NOT leave the cleanup-invocation counter at zero —
`drop_in_place` runs unconditionally, so one destructor invocation occurs
(on the uninitialized storage). -/
theorem C3_counterexample :
    ¬ destroyDropCount (new_uninit : RoCell Nat) = 0 := by
  decide

/-- C3 amended: destroying a cell constructed uninitialized and never
initialized unconditionally performs exactly one destructor invocation,
and that invocation runs on the uninitialized storage (the
cleanup-invocation counter observed after destruction is one, not
zero). -/
theorem C3_amended_destroy_uninit (T : Type) :
    destroyDropCount (new_uninit : RoCell T) = 1 ∧
    destroyEvents (new_uninit : RoCell T) = [none] :=
  ⟨rfl, rfl⟩

/-- C4: for every value `v`, constructing a cell with `new v` and
immediately destroying it performs exactly one destructor invocation, and
that invocation is on `v` — neither zero times nor more than once. -/
theorem C4_new_destroy_drops_once (T : Type) (v : T) :
    destroyEvents (new v) = [some v] := rfl

/-- C5: for every cell currently holding `v1`, `replace` with `v2` then
`replace` with `v3` returns `v1` from the first call and `v2` from the
second, and afterwards the cell dereferences to `v3`. -/
theorem C5_replace_roundtrip (T : Type) (c : RoCell T) (v1 v2 v3 : T)
    (h : c.slot = some v1) :
    (replace c v2).2 = some v1 ∧
    (replace (replace c v2).1 v3).2 = some v2 ∧
    deref (replace (replace c v2).1 v3).1 = some v3 := by
  refine ⟨?_, rfl, rfl⟩
  simpa [replace] using h

/-- Witness for C5 at `T = Nat`, cell holding `1`, replaced by `2` then `3`. -/
theorem C5_replace_roundtrip_witness :
    (replace (new 1 : RoCell Nat) 2).2 = some 1 ∧
    (replace (replace (new 1 : RoCell Nat) 2).1 3).2 = some 2 ∧
    deref (replace (replace (new 1 : RoCell Nat) 2).1 3).1 = some 3 :=
  C5_replace_roundtrip Nat (new 1) 1 2 3 rfl

/-- C6: for every initialized cell holding `v` and every mutation `f`,
writing `f(old)` through the mutable reference from `as_mut` and then
dereferencing the cell observes exactly `f v` (read-after-write
consistency in a single exclusive context). -/
theorem C6_as_mut_read_after_write (T : Type) (c : RoCell T) (v : T)
    (f : T → T) (h : c.slot = some v) :
    deref (as_mut_modify c f) = some (f v) := by
  simp [deref, as_mut_modify, h]

/-- Witness for C6 at `T = Nat`, cell holding `4`, mutation plus one. -/
theorem C6_as_mut_read_after_write_witness :
    deref (as_mut_modify (new 4 : RoCell Nat) (fun n => n + 1)) = some 5 :=
  C6_as_mut_read_after_write Nat (new 4) 4 (fun n => n + 1) rfl

/-- C7: for every cell already holding a valid value `vold` and every new
value `v`, `init` with `v` performs no destructor invocation (the old
value is leaked: its cleanup count stays zero across the call), and a
subsequent dereference yields `v`. -/
theorem C7_init_leaks_old (T : Type) (c : RoCell T) (vold v : T)
    (h : c.slot = some vold) :
    (init c v).2 = [] ∧ deref (init c v).1 = some v :=
  ⟨rfl, rfl⟩

/-- Witness for C7 at `T = Nat`, cell holding `7`, re-written with `8`. -/
theorem C7_init_leaks_old_witness :
    (init (new 7 : RoCell Nat) 8).2 = [] ∧
    deref (init (new 7 : RoCell Nat) 8).1 = some 8 :=
  C7_init_leaks_old Nat (new 7) 7 8 rfl

/-- C8: under the stated precondition (the cell holds a valid value), no
operation returns a failure indicator: construction, `init`, dereference,
`replace` (both the new state and the returned old value), mutation
through `as_mut`, and destruction all yield plain defined results with no
error branch. -/
theorem C8_no_failure_indicator (T : Type) (c : RoCell T) (v : T)
    (f : T → T) (h : (deref c).isSome = true) :
    ((new v : RoCell T).slot).isSome = true ∧
    ((init c v).1.slot).isSome = true ∧
    (deref c).isSome = true ∧
    ((replace c v).1.slot).isSome = true ∧
    ((replace c v).2).isSome = true ∧
    ((as_mut_modify c f).slot).isSome = true ∧
    destroyDropCount c = 1 := by
  obtain ⟨w, hw⟩ := Option.isSome_iff_exists.mp h
  refine ⟨rfl, rfl, h, rfl, ?_, ?_, rfl⟩
  · simpa [replace, deref] using h
  · have hw' : c.slot = some w := hw
    simp [as_mut_modify, hw']

/-- Witness for C8 at `T = Nat`, cell holding `0`, value `1`, identity
mutation. -/
theorem C8_no_failure_indicator_witness :
    ((new 1 : RoCell Nat).slot).isSome = true ∧
    ((init (new 0 : RoCell Nat) 1).1.slot).isSome = true ∧
    (deref (new 0 : RoCell Nat)).isSome = true ∧
    ((replace (new 0 : RoCell Nat) 1).1.slot).isSome = true ∧
    ((replace (new 0 : RoCell Nat) 1).2).isSome = true ∧
    ((as_mut_modify (new 0 : RoCell Nat) (fun n => n)).slot).isSome = true ∧
    destroyDropCount (new 0 : RoCell Nat) = 1 :=
  C8_no_failure_indicator Nat (new 0) 1 (fun n => n) rfl

/-- C10: for every initialized cell holding `v`, debug-formatting the cell
produces exactly the output of formatting `v` itself — the Debug
implementation delegates through `deref` and adds no wrapper text. -/
theorem C10_debug_delegates (T : Type) (c : RoCell T) (v : T)
    (fmtT : T → String) (h : c.slot = some v) :
    debugFmt c fmtT = some (fmtT v) := by
  simp [debugFmt, deref, h]

/-- Witness for C10 at `T = Nat`, cell holding `3`, constant formatting. -/
theorem C10_debug_delegates_witness :
    debugFmt (new 3 : RoCell Nat) (fun n => toString n) = some (toString (3 : Nat)) :=
  C10_debug_delegates Nat (new 3) 3 (fun n => toString n) rfl
